import Mathlib

/-!
Verification of the orchestration logic of bt_helper.py against its design
specification.  The Python module is shallowly embedded: each method body is
translated into a pure Lean function over explicit inputs (object-manager
snapshots, per-adapter failure behaviour of the remote bus, the callback the
remote service fires), producing the return value together with a trace of the
externally visible actions (bus calls, log lines, event-loop enter/quit/exit).
-/

/-- Values carried by DBus properties as the Python code compares them
(integers, booleans, strings); comparison of values of different shapes is
inequality, never an error, matching Python `!=` on these types. -/
inductive Val where
  | nat : Nat → Val
  | bool : Bool → Val
  | str : String → Val
deriving DecidableEq

/-- Constant `BT_ANY = 0` from bt_helper.py line 39. -/
def BT_ANY : Nat := 0

/-- Constant `BT_KEYBOARD = int('0x2540', 16)` from bt_helper.py line 40. -/
def BT_KEYBOARD : Nat := 0x2540

/-- Constant `DEVICE_IFACE` from bt_helper.py line 35. -/
def DEVICE_IFACE : String := "org.bluez.Device1"

/-- Constant `ADAPTER_IFACE` from bt_helper.py line 34. -/
def ADAPTER_IFACE : String := "org.bluez.Adapter1"

/-- A Python `KeyError`, carrying the missing key. -/
structure KeyErr where
  key : String
deriving DecidableEq

/-- Property mapping of one object under one interface, as an association
list (Python dict; keys are unique in any dict the bus hands over). -/
abbrev ObjProps := List (String × Val)

/-- Python mapping access `obj[k]`: the value, or a `KeyError` when the key is
missing. -/
def propGet (props : ObjProps) (k : String) : Except KeyErr Val :=
  match props.lookup k with
  | some v => Except.ok v
  | none => Except.error ⟨k⟩

/-- The `rejected` loop of `BtDbusManager.get_bt_devices` (lines 79-83):
walks the filters dict in order, reading `obj[filter]` (which may raise
`KeyError`) and rejecting on the first value mismatch. -/
def filtersRejected (props : ObjProps) : List (String × Val) → Except KeyErr Bool
  | [] => Except.ok false
  | (k, v) :: rest =>
    match propGet props k with
    | Except.error e => Except.error e
    | Except.ok pv =>
      if pv ≠ v then Except.ok true else filtersRejected props rest

/-- Lines 79-86 of `get_bt_devices`: after the class check, the device is
yielded exactly when the filter loop did not reject it. -/
def deviceFilterPart (props : ObjProps) (filters : List (String × Val)) :
    Except KeyErr Bool :=
  match filtersRejected props filters with
  | Except.error e => Except.error e
  | Except.ok rejected => Except.ok (!rejected)

/-- The body of the `try` block of `get_bt_devices` (lines 76-86): when
`category` is not `BT_ANY`, read `obj['Class']` (possible `KeyError`) and skip
the device unless it equals `category`; then run the filter loop.  The result
says whether the device is yielded; a `KeyError` propagates to the handler. -/
def deviceTry (props : ObjProps) (category : Nat) (filters : List (String × Val)) :
    Except KeyErr Bool :=
  if category ≠ BT_ANY then
    match propGet props "Class" with
    | Except.error e => Except.error e
    | Except.ok c =>
      if c ≠ Val.nat category then Except.ok false
      else deviceFilterPart props filters
  else deviceFilterPart props filters

/-- The device-filter predicate of `get_bt_devices` with its
`except KeyError` handler (lines 87-90): a `KeyError` raised inside the try
block is logged at info level and the device is skipped (`continue`), so it
behaves as a non-match rather than an escaping error. -/
def deviceMatch (props : ObjProps) (category : Nat) (filters : List (String × Val)) :
    Bool :=
  match deviceTry props category filters with
  | Except.ok b => b
  | Except.error _ => false

/-- Interface mapping of one object: interface name to its property dict. -/
abbrev ObjIfaces := List (String × ObjProps)

/-- One `GetManagedObjects` reply: object path to its interface mapping. -/
abbrev Snapshot := List (String × ObjIfaces)

/-- Python truthiness of `ifaces.get(iface_name)` in `_get_objects_by_iface`
(line 53): the interface must be present and its property dict non-empty (an
empty dict is falsy in Python, so such an object is skipped). -/
def ifaceTruthy (ifaces : ObjIfaces) (name : String) : Bool :=
  match ifaces.lookup name with
  | some props => !props.isEmpty
  | none => false

/-- `BtDbusManager._get_objects_by_iface` (lines 51-54) over one snapshot:
paths of the objects exposing the interface, in enumeration order. -/
def get_objects_by_iface (snap : Snapshot) (iface : String) : List String :=
  (snap.filter (fun o => ifaceTruthy o.2 iface)).map (fun o => o.1)

/-- `BtDbusManager.get_object_by_path` (lines 96-97): a fresh
`GetManagedObjects` snapshot indexed by path; a vanished path raises
`KeyError`. -/
def get_object_by_path (snap : Snapshot) (path : String) : Except KeyErr ObjIfaces :=
  match snap.lookup path with
  | some ifaces => Except.ok ifaces
  | none => Except.error ⟨path⟩

/-- Loop body of `get_bt_devices` (lines 73-90) over the enumerated paths.
Line 74 (`get_object_by_path(...)[DEVICE_IFACE]`) sits OUTSIDE the
`try`/`except KeyError`, so a `KeyError` there escapes the generator: the
result is the list of paths yielded before the failure together with the
escaped error, if any. -/
def get_bt_devices_go (readSnap : Snapshot) (category : Nat)
    (filters : List (String × Val)) : List String → List String × Option KeyErr
  | [] => ([], none)
  | path :: rest =>
    match get_object_by_path readSnap path with
    | Except.error e => ([], some e)
    | Except.ok ifaces =>
      match ifaces.lookup DEVICE_IFACE with
      | none => ([], some ⟨DEVICE_IFACE⟩)
      | some props =>
        if deviceMatch props category filters then
          (path :: (get_bt_devices_go readSnap category filters rest).1,
            (get_bt_devices_go readSnap category filters rest).2)
        else get_bt_devices_go readSnap category filters rest

/-- `BtDbusManager.get_bt_devices` (lines 61-90): enumerate device objects
from the snapshot seen by `_get_objects_by_iface`, then read each object from
the (possibly newer) snapshot seen by `get_object_by_path` and apply the class
and property filters. -/
def get_bt_devices (enumSnap readSnap : Snapshot) (category : Nat)
    (filters : List (String × Val)) : List String × Option KeyErr :=
  get_bt_devices_go readSnap category filters
    (get_objects_by_iface enumSnap DEVICE_IFACE)

/-- The per-path read-and-filter outcome of `get_bt_devices` when no handle
vanishes: the path resolves in the read snapshot, carries the device
interface, and its properties pass the class and property filters. -/
def readMatch (readSnap : Snapshot) (category : Nat)
    (filters : List (String × Val)) (path : String) : Bool :=
  match readSnap.lookup path with
  | none => false
  | some ifaces =>
    match ifaces.lookup DEVICE_IFACE with
    | none => false
    | some props => deviceMatch props category filters

/-- The reply the remote service eventually delivers for an asynchronous
`Pair()` request: the success callback, or the failure callback with a
reason. -/
inductive PairReply where
  | ok : PairReply
  | err : String → PairReply
deriving DecidableEq

/-- Externally visible actions of `BtDevice.pair` and its callbacks. -/
inductive PairAct where
  | pairCall : PairAct
  | logPairOk : PairAct
  | logPairFail : String → PairAct
  | quitLoop : PairAct
  | enterLoop : PairAct
  | exitLoop : PairAct
  | connectCall : PairAct
  | logConnectError : PairAct
deriving DecidableEq

/-- `BtDevice._pair_ok` (lines 178-180): log success, then
`self._bt_mgr.resume()` which quits the main loop. -/
def pair_ok : List PairAct := [PairAct.logPairOk, PairAct.quitLoop]

/-- `BtDevice._pair_error` (lines 182-185): log the failure reason at
warning level, then `self._bt_mgr.resume()` which quits the main loop. -/
def pair_error (reason : String) : List PairAct :=
  [PairAct.logPairFail reason, PairAct.quitLoop]

/-- Dispatch of one remote completion to the handler registered by `Pair()`
(line 163-164): the reply handler is `_pair_ok`, the error handler is
`_pair_error`. -/
def dispatchReply : PairReply → List PairAct
  | PairReply.ok => pair_ok
  | PairReply.err r => pair_error r

/-- `BtDbusManager.wait` (lines 99-100) during a pairing call: the GLib main
loop dispatches the queued remote completions in order; `run()` returns as
soon as a dispatched callback calls `quit()`.  Result: the actions performed
inside the loop, and whether the loop was in fact exited (with no completion
the call blocks forever). -/
def runLoop : List PairReply → List PairAct × Bool
  | [] => ([], false)
  | e :: rest =>
    let acts := dispatchReply e
    if PairAct.quitLoop ∈ acts then (acts, true)
    else
      let r := runLoop rest
      (acts ++ r.1, r.2)

/-- `BtDevice.pair` (lines 156-169): issue the asynchronous `Pair()` with the
two handlers, block in `wait()`, and after the loop exits call `Connect()`
unconditionally, logging (not raising) a connect failure.  `events` is the
sequence of completions the remote service delivers; `connectFails` says
whether the `Connect()` call raises a DBus error.  Result: the action trace
and whether `pair` returned to its caller. -/
def pair (events : List PairReply) (connectFails : Bool) : List PairAct × Bool :=
  let r := runLoop events
  if r.2 then
    ([PairAct.pairCall, PairAct.enterLoop] ++ r.1 ++
        [PairAct.exitLoop, PairAct.connectCall] ++
        (if connectFails then [PairAct.logConnectError] else []),
      true)
  else ([PairAct.pairCall, PairAct.enterLoop] ++ r.1, false)

/-- Count of failure-log actions in a pair trace. -/
def countPairFail (t : List PairAct) : Nat :=
  (t.filter (fun a => match a with | PairAct.logPairFail _ => true | _ => false)).length

/-- Per-adapter behaviour of the remote bus during one `scan` call:
whether the pre-start `StopDiscovery()` raises (line 117, swallowed), whether
`StartDiscovery()` raises (line 120, NOT wrapped in a try), and whether the
`StopDiscovery()` issued by `_scan_timeout` raises (line 126, NOT wrapped in
a try). -/
structure AdapterSim where
  preStopFails : Bool
  startFails : Bool
  stopFails : Bool
deriving DecidableEq

/-- Externally visible actions of `BtDbusManager.scan` and `_scan_timeout`. -/
inductive ScanAct where
  | addReceiver : String → ScanAct
  | stopDiscoveryCall : Nat → ScanAct
  | startDiscoveryCall : Nat → ScanAct
  | armTimer : Nat → ScanAct
  | stopAtTimeoutCall : Nat → ScanAct
  | quitScanLoop : ScanAct
deriving DecidableEq

/-- Lines 115-120 of `scan`: for each adapter, `StopDiscovery()` inside a
`try` swallowing `DBusException`, then `StartDiscovery()` outside any `try`.
Result: the calls issued and whether an uncaught `StartDiscovery` error
aborted the loop (remaining adapters are then not started). -/
def scanStartPhase : Nat → List AdapterSim → List ScanAct × Bool
  | _, [] => ([], false)
  | i, a :: rest =>
    if a.startFails then
      ([ScanAct.stopDiscoveryCall i, ScanAct.startDiscoveryCall i], true)
    else
      (ScanAct.stopDiscoveryCall i :: ScanAct.startDiscoveryCall i ::
          (scanStartPhase (i + 1) rest).1,
        (scanStartPhase (i + 1) rest).2)

/-- `BtDbusManager._scan_timeout` (lines 124-127): `StopDiscovery()` on each
adapter with NO exception handler, then `quit()`.  An exception escapes the
timer callback: the remaining adapters are not stopped and `quit()` is never
reached (the loop is not exited).  Result: the calls issued and whether
`quit()` was called. -/
def scan_timeout : Nat → List AdapterSim → List ScanAct × Bool
  | _, [] => ([ScanAct.quitScanLoop], true)
  | i, a :: rest =>
    if a.stopFails then ([ScanAct.stopAtTimeoutCall i], false)
    else
      (ScanAct.stopAtTimeoutCall i :: (scan_timeout (i + 1) rest).1,
        (scan_timeout (i + 1) rest).2)

/-- Manager-level state visible across `scan` calls: the signal receivers
added on the system bus (`add_signal_receiver` has no matching removal
anywhere in the module). -/
structure MgrState where
  subscriptions : List String
deriving DecidableEq

/-- Outcome of one `scan` call. -/
structure ScanOutcome where
  trace : List ScanAct
  aborted : Bool
  returned : Bool
  retval : Option (List String)
deriving DecidableEq

/-- `BtDbusManager.scan` (lines 105-122): add the two signal receivers, run
the stop/start loop over the adapters (a `StartDiscovery` failure escapes
before the timer is armed), arm a one-shot timer for `timeout` seconds and
run the main loop; the only `quit()` during a scan is the one in
`_scan_timeout`, so the call returns exactly when that callback completes.
`scan` has no `return` statement: its Python return value is `None`. -/
def scan (st : MgrState) (adapters : List AdapterSim) (timeout : Nat) :
    MgrState × ScanOutcome :=
  if (scanStartPhase 0 adapters).2 then
    (⟨st.subscriptions ++ ["InterfacesAdded", "PropertiesChanged"]⟩,
      ⟨[ScanAct.addReceiver "InterfacesAdded", ScanAct.addReceiver "PropertiesChanged"] ++
          (scanStartPhase 0 adapters).1,
        true, false, none⟩)
  else
    (⟨st.subscriptions ++ ["InterfacesAdded", "PropertiesChanged"]⟩,
      ⟨[ScanAct.addReceiver "InterfacesAdded", ScanAct.addReceiver "PropertiesChanged"] ++
          (scanStartPhase 0 adapters).1 ++ [ScanAct.armTimer timeout] ++
          (scan_timeout 0 adapters).1,
        false, (scan_timeout 0 adapters).2, none⟩)

/-- Two sequential `scan` calls on the same manager instance. -/
def scanTwice (st : MgrState) (adapters : List AdapterSim) (timeout : Nat) :
    MgrState × ScanOutcome × ScanOutcome :=
  let r1 := scan st adapters timeout
  let r2 := scan r1.1 adapters timeout
  (r2.1, r1.2, r2.2)

/-- State of one adapter as `BtAdapter.ensure_powered` sees it: the current
`Powered` property and whether the remote `Set` request fails. -/
structure PowState where
  powered : Bool
  setFails : Bool
deriving DecidableEq

/-- Externally visible actions of `BtAdapter.ensure_powered`. -/
inductive PowAct where
  | getCall : PowAct
  | logPoweringOn : PowAct
  | logAlready : PowAct
  | setCall : PowAct
  | logPoweredOn : PowAct
  | logSetFailed : PowAct
deriving DecidableEq

/-- `BtAdapter.ensure_powered` (lines 138-149): read `Powered`; if already
true, log and return without any `Set`; otherwise issue
`Set('Powered', True)`, which on success flips the property and on remote
failure is logged at error level, leaving the property unchanged. -/
def ensure_powered (a : PowState) : PowState × List PowAct :=
  if a.powered then
    (a, [PowAct.getCall, PowAct.logPoweringOn, PowAct.logAlready])
  else if a.setFails then
    (a, [PowAct.getCall, PowAct.logPoweringOn, PowAct.setCall, PowAct.logSetFailed])
  else
    (⟨true, a.setFails⟩,
      [PowAct.getCall, PowAct.logPoweringOn, PowAct.setCall, PowAct.logPoweredOn])

/-- Two successive `ensure_powered` calls on the same adapter. -/
def ensure_powered_twice (a : PowState) : PowState × List PowAct :=
  let r1 := ensure_powered a
  let r2 := ensure_powered r1.1
  (r2.1, r1.2 ++ r2.2)

theorem bool_eq_of_iff {a b : Bool} (h : a = true ↔ b = true) : a = b := by
  cases a <;> cases b <;> simp_all

theorem filtersRejected_ok_false_iff (props : ObjProps) (fs : List (String × Val)) :
    filtersRejected props fs = Except.ok false ↔
      ∀ p ∈ fs, props.lookup p.1 = some p.2 := by
  induction fs with
  | nil => simp [filtersRejected]
  | cons hd tl ih =>
    obtain ⟨k, v⟩ := hd
    cases hlk : props.lookup k with
    | none =>
      simp only [filtersRejected, propGet, hlk]
      refine iff_of_false (by simp) (fun h => ?_)
      have h1 := h (k, v) (List.mem_cons_self _ _)
      simp [hlk] at h1
    | some pv =>
      simp only [filtersRejected, propGet, hlk]
      by_cases hpv : pv = v
      · subst hpv
        rw [if_neg (by simp)]
        rw [ih]
        constructor
        · intro h p hp
          rcases List.mem_cons.mp hp with h1 | h2
          · subst h1; simpa using hlk
          · exact h p h2
        · intro h p hp
          exact h p (List.mem_cons_of_mem _ hp)
      · rw [if_pos hpv]
        refine iff_of_false (by simp) (fun h => ?_)
        have h1 := h (k, v) (List.mem_cons_self _ _)
        simp [hlk] at h1
        exact hpv h1

theorem deviceFilterPart_ok_true_iff (props : ObjProps) (fs : List (String × Val)) :
    deviceFilterPart props fs = Except.ok true ↔
      ∀ p ∈ fs, props.lookup p.1 = some p.2 := by
  unfold deviceFilterPart
  cases hfr : filtersRejected props fs with
  | error e =>
    refine iff_of_false (by simp) (fun h => ?_)
    rw [(filtersRejected_ok_false_iff props fs).mpr h] at hfr
    cases hfr
  | ok rejected =>
    cases rejected with
    | false =>
      exact iff_of_true (by simp) ((filtersRejected_ok_false_iff props fs).mp hfr)
    | true =>
      refine iff_of_false (by simp) (fun h => ?_)
      rw [(filtersRejected_ok_false_iff props fs).mpr h] at hfr
      cases hfr

theorem deviceTry_ok_true_iff (props : ObjProps) (category : Nat)
    (filters : List (String × Val)) :
    deviceTry props category filters = Except.ok true ↔
      ((category = BT_ANY ∨ props.lookup "Class" = some (Val.nat category)) ∧
        ∀ p ∈ filters, props.lookup p.1 = some p.2) := by
  by_cases hcat : category = BT_ANY
  · unfold deviceTry
    rw [if_neg (by simpa using hcat)]
    rw [deviceFilterPart_ok_true_iff]
    simp [hcat]
  · unfold deviceTry
    rw [if_pos (by simpa using hcat)]
    cases hlk : props.lookup "Class" with
    | none =>
      simp only [propGet, hlk]
      refine iff_of_false (by simp) (fun h => ?_)
      rcases h.1 with h1 | h2
      · exact hcat h1
      · cases h2
    | some c =>
      simp only [propGet, hlk]
      by_cases hc : c = Val.nat category
      · subst hc
        rw [if_neg (by simp)]
        rw [deviceFilterPart_ok_true_iff]
        constructor
        · intro h; exact ⟨Or.inr rfl, h⟩
        · intro h; exact h.2
      · rw [if_pos hc]
        refine iff_of_false (by simp) (fun h => ?_)
        rcases h.1 with h1 | h2
        · exact hcat h1
        · exact hc (Option.some_injective _ h2)

theorem deviceMatch_true_iff_try (props : ObjProps) (category : Nat)
    (filters : List (String × Val)) :
    deviceMatch props category filters = true ↔
      deviceTry props category filters = Except.ok true := by
  unfold deviceMatch
  cases h : deviceTry props category filters with
  | ok b => cases b <;> simp
  | error e => simp

/-- C4: the device-filter predicate used by `get_bt_devices` yields the device
iff the class constraint holds (wildcard, or `Class` present and equal to the
category) and every filter key is present with the filter value; absence of
`Class` or of a filter key gives `false`, never an escaping error (the
predicate is a total boolean function). -/
theorem deviceMatch_iff (props : ObjProps) (category : Nat)
    (filters : List (String × Val)) :
    deviceMatch props category filters = true ↔
      ((category = BT_ANY ∨ props.lookup "Class" = some (Val.nat category)) ∧
        ∀ p ∈ filters, props.lookup p.1 = some p.2) := by
  rw [deviceMatch_true_iff_try, deviceTry_ok_true_iff]

theorem lookup_cons_self (k : String) (v : Val) (l : ObjProps) :
    List.lookup k ((k, v) :: l) = some v := by
  simp [List.lookup]

theorem lookup_cons_ne2 (k k2 : String) (v : Val) (l : ObjProps) (h : k ≠ k2) :
    List.lookup k ((k2, v) :: l) = List.lookup k l := by
  have hb : (k == k2) = false := beq_eq_false_iff_ne.mpr h
  simp [List.lookup, hb]

/-- C10 (counterexample): with `category = 0` the Class property IS consulted
when it appears among the property filters, and such a call selects exactly
the devices whose Class equals 0: two devices differing only in Class give
different results under the same category-0 call. -/
theorem class_zero_selectable_via_filters :
    deviceMatch [("Class", Val.nat 0)] BT_ANY [("Class", Val.nat 0)] = true ∧
    deviceMatch [("Class", Val.nat 1)] BT_ANY [("Class", Val.nat 0)] = false := by
  exact ⟨rfl, rfl⟩

/-- C10 (amended): `BT_ANY = 0`, and with `category = 0` the class CHECK of
`get_bt_devices` is skipped, so through the category parameter alone a device
whose Class is 0 is indistinguishable from one lacking Class entirely
(provided Class is not also used as a property filter); the filters mapping
can still consult and select Class. -/
theorem class_zero_wildcard_via_category :
    BT_ANY = 0 ∧
    ∀ (props : ObjProps) (category : Nat) (filters : List (String × Val)),
      List.lookup "Class" props = none →
      (∀ p ∈ filters, p.1 ≠ "Class") →
      deviceMatch (("Class", Val.nat 0) :: props) category filters =
        deviceMatch props category filters := by
  refine ⟨rfl, fun props category filters hcls hfk => ?_⟩
  have hfilts : ∀ p ∈ filters,
      List.lookup p.1 (("Class", Val.nat 0) :: props) = List.lookup p.1 props :=
    fun p hp => lookup_cons_ne2 p.1 "Class" (Val.nat 0) props (hfk p hp)
  apply bool_eq_of_iff
  rw [deviceMatch_true_iff_try, deviceMatch_true_iff_try,
    deviceTry_ok_true_iff, deviceTry_ok_true_iff,
    lookup_cons_self "Class" (Val.nat 0) props, hcls]
  apply and_congr
  · constructor
    · rintro (h | h)
      · exact Or.inl h
      · have h2 := Option.some_injective _ h
        injection h2 with h3
        exact Or.inl h3.symm
    · rintro (h | h)
      · exact Or.inl h
      · cases h
  · constructor
    · intro h p hp
      rw [← hfilts p hp]
      exact h p hp
    · intro h p hp
      rw [hfilts p hp]
      exact h p hp

/-- C10 (witness): a keyboard-category call with a Paired filter on a device
whose Class is 0 versus the same device lacking Class: identical outcomes. -/
theorem class_zero_wildcard_witness :
    deviceMatch [("Class", Val.nat 0), ("Paired", Val.bool false)] 5
        [("Paired", Val.bool false)] =
      deviceMatch [("Paired", Val.bool false)] 5 [("Paired", Val.bool false)] :=
  class_zero_wildcard_via_category.2 [("Paired", Val.bool false)] 5
    [("Paired", Val.bool false)] (by decide) (by decide)

/-- C1 (counterexample): when the remote service invokes the failure callback
with reason AuthenticationFailed, `pair` still issues `Connect()` on the
device, contradicting the claim that no `Connect()` call is issued. -/
theorem pair_failure_connect_issued :
    PairAct.connectCall ∈ (pair [PairReply.err "AuthenticationFailed"] false).1 := by
  decide

/-- C1 (amended): when the remote service invokes the failure callback with
some reason, `pair` logs that reason at warning level and resumes the loop,
but it then issues `Connect()` unconditionally (lines 166-169 run regardless
of the pairing outcome) and surfaces the failure only through logging, not as
a Failure result value (the Python function returns None). -/
theorem pair_failure_behavior (r : String) (connectFails : Bool) :
    (pair [PairReply.err r] connectFails).1 =
      [PairAct.pairCall, PairAct.enterLoop, PairAct.logPairFail r,
        PairAct.quitLoop, PairAct.exitLoop, PairAct.connectCall] ++
        (if connectFails then [PairAct.logConnectError] else []) ∧
    (pair [PairReply.err r] connectFails).2 = true := by
  constructor <;> rfl

/-- C2: when the remote service eventually invokes exactly one of the two
registered completion callbacks, `pair` returns, the trace shows the callback
(and its quit) strictly before the loop exit and the post-wait code, exactly
one of the success/failure outcomes is logged (never both), and the event
loop is entered once and exited once, never re-entered; with no callback at
all the call does not return. -/
theorem pair_single_callback_resolution (e : PairReply) (connectFails : Bool) :
    (pair [e] connectFails).2 = true ∧
    (pair [e] connectFails).1 =
      [PairAct.pairCall, PairAct.enterLoop] ++ dispatchReply e ++
        [PairAct.exitLoop, PairAct.connectCall] ++
        (if connectFails then [PairAct.logConnectError] else []) ∧
    (pair [e] connectFails).1.count PairAct.quitLoop = 1 ∧
    (pair [e] connectFails).1.count PairAct.enterLoop = 1 ∧
    (pair [e] connectFails).1.count PairAct.exitLoop = 1 ∧
    (pair [e] connectFails).1.count PairAct.logPairOk
      + countPairFail (pair [e] connectFails).1 = 1 ∧
    (pair ([] : List PairReply) connectFails).2 = false := by
  cases e with
  | ok =>
    cases connectFails <;>
      simp [pair, runLoop, dispatchReply, pair_ok, countPairFail, List.count_cons]
  | err r =>
    cases connectFails <;>
      simp [pair, runLoop, dispatchReply, pair_error, countPairFail, List.count_cons]

/-- C8 (counterexample): an unpowered adapter whose remote power-set request
fails is issued TWO power-set requests by two successive `ensure_powered`
calls (the failed set leaves `Powered` false, so the second call retries),
contradicting the claim of at most one power-set request for every adapter. -/
theorem ensure_powered_retry_two_sets :
    (ensure_powered_twice ⟨false, true⟩).2.count PowAct.setCall = 2 := by
  decide

/-- C8 (amended): when the adapter already reports powered, `ensure_powered`
issues no power-set at all and logs the already-satisfied case; when the
power-set succeeds, two successive calls issue at most one (exactly one from
unpowered, zero from powered) set request; only a failing remote set makes
the second call issue a second request. -/
theorem ensure_powered_conditional_idempotence (a : PowState) :
    (ensure_powered_twice a).2.count PowAct.setCall =
      (if a.powered then 0 else if a.setFails then 2 else 1) ∧
    (ensure_powered ⟨true, a.setFails⟩).2.count PowAct.setCall = 0 ∧
    PowAct.logAlready ∈ (ensure_powered ⟨true, a.setFails⟩).2 := by
  obtain ⟨p, sf⟩ := a
  cases p <;> cases sf <;> decide

/-- C5 (counterexample): a handle that vanished between enumeration and the
property read is NOT tolerated: line 74 sits outside the try/except, so the
`KeyError` escapes and the enumeration aborts without yielding the remaining
device, although that device is still present and passes the filter. -/
theorem get_bt_devices_vanished_aborts :
    get_bt_devices
        [("/dev1", [(DEVICE_IFACE, [("Address", Val.str "aa")])]),
          ("/dev2", [(DEVICE_IFACE, [("Address", Val.str "bb")])])]
        [("/dev2", [(DEVICE_IFACE, [("Address", Val.str "bb")])])]
        BT_ANY [] = ([], some ⟨"/dev1"⟩) ∧
    readMatch [("/dev2", [(DEVICE_IFACE, [("Address", Val.str "bb")])])]
        BT_ANY [] "/dev2" = true ∧
    "/dev2" ∈ get_objects_by_iface
        [("/dev1", [(DEVICE_IFACE, [("Address", Val.str "aa")])]),
          ("/dev2", [(DEVICE_IFACE, [("Address", Val.str "bb")])])] DEVICE_IFACE := by
  refine ⟨rfl, rfl, by decide⟩

theorem get_bt_devices_go_ok (readSnap : Snapshot) (category : Nat)
    (filters : List (String × Val)) :
    ∀ paths : List String,
      (∀ path ∈ paths, ∃ ifaces props, readSnap.lookup path = some ifaces ∧
        ifaces.lookup DEVICE_IFACE = some props) →
      get_bt_devices_go readSnap category filters paths =
        (paths.filter (readMatch readSnap category filters), none) := by
  intro paths
  induction paths with
  | nil => intro _; rfl
  | cons p rest ih =>
    intro h
    obtain ⟨ifaces, props, hli, hlp⟩ := h p (List.mem_cons_self _ _)
    have hrest := ih (fun x hx => h x (List.mem_cons_of_mem _ hx))
    simp only [get_bt_devices_go, get_object_by_path, hli, hlp]
    rw [hrest]
    simp only [List.filter_cons, readMatch, hli, hlp]
    by_cases hd : deviceMatch props category filters = true
    · simp [hd]
    · simp [hd]

/-- C5 (amended): only a `KeyError` raised inside the try block (a missing
Class or filter property) is tolerated, logged and skipped with the
enumeration continuing; when every enumerated handle still resolves with a
device-interface entry at read time, the operation runs over all objects and
returns exactly the filter-passing devices with no escaping error. -/
theorem get_bt_devices_tolerates_missing_props
    (enumSnap readSnap : Snapshot) (category : Nat) (filters : List (String × Val))
    (h : ∀ path ∈ get_objects_by_iface enumSnap DEVICE_IFACE,
      ∃ ifaces props, readSnap.lookup path = some ifaces ∧
        ifaces.lookup DEVICE_IFACE = some props) :
    get_bt_devices enumSnap readSnap category filters =
      ((get_objects_by_iface enumSnap DEVICE_IFACE).filter
        (readMatch readSnap category filters), none) :=
  get_bt_devices_go_ok readSnap category filters _ h

/-- C5 (witness): a device present at read time but lacking the required
Paired property is tolerated and just skipped, no error. -/
theorem get_bt_devices_tolerates_witness :
    get_bt_devices [("/d", [(DEVICE_IFACE, [("Address", Val.str "aa")])])]
        [("/d", [(DEVICE_IFACE, [("Address", Val.str "aa")])])]
        BT_ANY [("Paired", Val.bool true)] =
      ((get_objects_by_iface [("/d", [(DEVICE_IFACE, [("Address", Val.str "aa")])])]
          DEVICE_IFACE).filter
        (readMatch [("/d", [(DEVICE_IFACE, [("Address", Val.str "aa")])])]
          BT_ANY [("Paired", Val.bool true)]), none) :=
  get_bt_devices_tolerates_missing_props
    [("/d", [(DEVICE_IFACE, [("Address", Val.str "aa")])])]
    [("/d", [(DEVICE_IFACE, [("Address", Val.str "aa")])])]
    BT_ANY [("Paired", Val.bool true)]
    (by
      intro path hp
      have hp2 : path ∈ ["/d"] := hp
      rw [List.mem_singleton] at hp2
      subst hp2
      exact ⟨_, _, rfl, rfl⟩)

theorem scanStartPhase_snd (adapters : List AdapterSim) : ∀ i,
    (scanStartPhase i adapters).2 = adapters.any (fun a => a.startFails) := by
  induction adapters with
  | nil => intro _; rfl
  | cons a rest ih =>
    intro i
    by_cases hs : a.startFails = true
    · simp [scanStartPhase, hs]
    · have hs2 : a.startFails = false := by simpa using hs
      simp [scanStartPhase, hs2, ih]

theorem scanStartPhase_no_arm (adapters : List AdapterSim) (t : Nat) : ∀ i,
    ScanAct.armTimer t ∉ (scanStartPhase i adapters).1 := by
  induction adapters with
  | nil => intro _; simp [scanStartPhase]
  | cons a rest ih =>
    intro i
    by_cases hs : a.startFails = true
    · simp [scanStartPhase, hs]
    · have hs2 : a.startFails = false := by simpa using hs
      simp [scanStartPhase, hs2, ih]

theorem scan_timeout_trace (adapters : List AdapterSim) : ∀ i : Nat,
    scan_timeout i adapters =
      ((List.range (min (adapters.findIdx (fun a => a.stopFails) + 1)
          adapters.length)).map (fun k => ScanAct.stopAtTimeoutCall (i + k)) ++
        (if adapters.all (fun a => !a.stopFails) then [ScanAct.quitScanLoop] else []),
        adapters.all (fun a => !a.stopFails)) := by
  induction adapters with
  | nil => intro i; simp [scan_timeout]
  | cons a rest ih =>
    intro i
    by_cases hs : a.stopFails = true
    · have h1 : min ((a :: rest).findIdx (fun a => a.stopFails) + 1)
          (a :: rest).length = 1 := by
        rw [List.findIdx_cons]
        simp only [hs, cond_true, List.length_cons]
        omega
      simp only [scan_timeout, hs, if_true, h1]
      simp only [List.all_cons, hs, Bool.not_true, Bool.false_and, if_false,
        List.append_nil]
      rfl
    · have hs2 : a.stopFails = false := by simpa using hs
      have hmin : min ((a :: rest).findIdx (fun a => a.stopFails) + 1)
          (a :: rest).length =
          min (rest.findIdx (fun a => a.stopFails) + 1) rest.length + 1 := by
        rw [List.findIdx_cons]
        simp only [hs2, cond_false, List.length_cons]
        omega
      have hcomp : ((fun k => ScanAct.stopAtTimeoutCall (i + k)) ∘ Nat.succ) =
          (fun k => ScanAct.stopAtTimeoutCall (i + 1 + k)) := by
        funext k
        simp only [Function.comp_apply]
        congr 1
        omega
      simp only [scan_timeout, hs2, Bool.false_eq_true, if_false]
      rw [ih (i + 1), hmin, List.range_succ_eq_map, List.map_cons, List.map_map, hcomp]
      simp [List.all_cons, hs2]

theorem findIdx_stop_none (adapters : List AdapterSim)
    (h : ∀ a ∈ adapters, a.stopFails = false) :
    adapters.findIdx (fun a => a.stopFails) = adapters.length := by
  induction adapters with
  | nil => rfl
  | cons a rest ih =>
    rw [List.findIdx_cons]
    simp only [h a (List.mem_cons_self _ _), cond_false, List.length_cons]
    rw [ih (fun x hx => h x (List.mem_cons_of_mem _ hx))]

theorem scan_timeout_all_ok (adapters : List AdapterSim)
    (h : ∀ a ∈ adapters, a.stopFails = false) :
    scan_timeout 0 adapters =
      ((List.range adapters.length).map ScanAct.stopAtTimeoutCall ++
        [ScanAct.quitScanLoop], true) := by
  have hall : adapters.all (fun a => !a.stopFails) = true := by
    rw [List.all_eq_true]
    intro a ha
    simp [h a ha]
  have hmin : min (adapters.findIdx (fun a => a.stopFails) + 1) adapters.length =
      adapters.length := by
    rw [findIdx_stop_none adapters h]
    omega
  have hf : (fun k => ScanAct.stopAtTimeoutCall (0 + k)) =
      ScanAct.stopAtTimeoutCall := by
    funext k
    rw [Nat.zero_add]
  rw [scan_timeout_trace adapters 0, hmin, hall, hf]
  simp

/-- C3 (counterexample): a scan with timeout 5 and zero discoverable devices
returns, but it does not return an empty set (or any set): the Python `scan`
has no return statement, so its return value is None; the filtered set must
be obtained by a separate `get_bt_devices` call. -/
theorem scan_returns_no_device_set :
    (scan ⟨[]⟩ [] 5).2.returned = true ∧
    (scan ⟨[]⟩ [] 5).2.retval = none ∧
    (scan ⟨[]⟩ [] 5).2.retval ≠ some [] := by
  decide

/-- C3 (amended): when every adapter starts and stops cleanly, `scan` returns
exactly when the timer callback has quit the loop — the timer is armed for
the requested timeout and the quit is the last action, so the call ends at
the deadline, not before and not after — but with a None return value; the
filtered device set comes from the separate `get_bt_devices` query, which
with zero devices known yields the empty list and no error. -/
theorem scan_deadline_and_separate_query
    (st : MgrState) (adapters : List AdapterSim) (timeout : Nat)
    (hstart : ∀ a ∈ adapters, a.startFails = false)
    (hstop : ∀ a ∈ adapters, a.stopFails = false) :
    (scan st adapters timeout).2.returned = true ∧
    (scan st adapters timeout).2.aborted = false ∧
    ScanAct.armTimer timeout ∈ (scan st adapters timeout).2.trace ∧
    (∃ t, (scan st adapters timeout).2.trace = t ++ [ScanAct.quitScanLoop]) ∧
    (scan st adapters timeout).2.retval = none ∧
    get_bt_devices [] [] BT_ANY [] = ([], none) := by
  have hany : adapters.any (fun a => a.startFails) = false := by
    rw [List.any_eq_false]
    intro a ha
    simp [hstart a ha]
  have hsp : (scanStartPhase 0 adapters).2 = false := by
    rw [scanStartPhase_snd]
    exact hany
  have htc := scan_timeout_all_ok adapters hstop
  refine ⟨?_, ?_, ?_, ?_, ?_, rfl⟩
  · simp [scan, hsp, htc]
  · simp [scan, hsp]
  · simp [scan, hsp]
  · refine ⟨[ScanAct.addReceiver "InterfacesAdded",
      ScanAct.addReceiver "PropertiesChanged"] ++ (scanStartPhase 0 adapters).1 ++
      [ScanAct.armTimer timeout] ++
      (List.range adapters.length).map ScanAct.stopAtTimeoutCall, ?_⟩
    simp [scan, hsp, htc]
  · simp [scan, hsp]

/-- C3 (witness): zero adapters, timeout 7. -/
theorem scan_deadline_witness :
    (scan ⟨[]⟩ [] 7).2.returned = true ∧
    (scan ⟨[]⟩ [] 7).2.aborted = false ∧
    ScanAct.armTimer 7 ∈ (scan ⟨[]⟩ [] 7).2.trace ∧
    (∃ t, (scan ⟨[]⟩ [] 7).2.trace = t ++ [ScanAct.quitScanLoop]) ∧
    (scan ⟨[]⟩ [] 7).2.retval = none ∧
    get_bt_devices [] [] BT_ANY [] = ([], none) :=
  scan_deadline_and_separate_query ⟨[]⟩ [] 7 (by simp) (by simp)

/-- C6 (counterexample): one adapter whose `StartDiscovery()` raises: the
exception escapes `scan` (line 120 is outside any try), the session aborts
before the timer is armed and never runs to the timeout, contradicting the
claim that the session still runs to the timeout. -/
theorem scan_start_failure_aborts :
    (scan ⟨[]⟩ [⟨false, true, false⟩] 5).2.aborted = true ∧
    (scan ⟨[]⟩ [⟨false, true, false⟩] 5).2.returned = false ∧
    ScanAct.armTimer 5 ∉ (scan ⟨[]⟩ [⟨false, true, false⟩] 5).2.trace := by
  decide

/-- C6 (amended): the pre-start `StopDiscovery` failures are swallowed and
never abort the session (abortion depends only on the `StartDiscovery`
flags), but a `StartDiscovery` failure on any adapter aborts `scan` with an
uncaught exception: the session reaches the armed timer exactly when every
`StartDiscovery` succeeds. -/
theorem scan_abort_characterization
    (st : MgrState) (adapters : List AdapterSim) (timeout : Nat) :
    (scan st adapters timeout).2.aborted = adapters.any (fun a => a.startFails) ∧
    (ScanAct.armTimer timeout ∈ (scan st adapters timeout).2.trace ↔
      adapters.any (fun a => a.startFails) = false) := by
  by_cases hany : adapters.any (fun a => a.startFails) = true
  · have hsp : (scanStartPhase 0 adapters).2 = true := by
      rw [scanStartPhase_snd]
      exact hany
    constructor
    · simp [scan, hsp, hany]
    · simp only [scan, hsp, if_true]
      constructor
      · intro hmem
        rcases List.mem_append.mp hmem with h1 | h2
        · simp at h1
        · exact absurd h2 (scanStartPhase_no_arm adapters timeout 0)
      · intro hfalse
        rw [hany] at hfalse
        cases hfalse
  · have hany2 : adapters.any (fun a => a.startFails) = false := by simpa using hany
    have hsp : (scanStartPhase 0 adapters).2 = false := by
      rw [scanStartPhase_snd]
      exact hany2
    constructor
    · simp [scan, hsp, hany2]
    · simp [scan, hsp, hany2]

/-- C7 (counterexample): two adapters, the first failing its timeout
`StopDiscovery`: the stop error is NOT swallowed (line 126 has no try), so
the second adapter is never stopped and `quit()` is never called — the event
loop is not exited, contradicting the claim. -/
theorem scan_timeout_stop_failure :
    scan_timeout 0 [⟨false, false, true⟩, ⟨false, false, false⟩] =
      ([ScanAct.stopAtTimeoutCall 0], false) ∧
    ScanAct.stopAtTimeoutCall 1 ∉
      (scan_timeout 0 [⟨false, false, true⟩, ⟨false, false, false⟩]).1 ∧
    ScanAct.quitScanLoop ∉
      (scan_timeout 0 [⟨false, false, true⟩, ⟨false, false, false⟩]).1 := by
  decide

/-- C7 (amended): on timer fire, stop-discovery is issued on the adapters in
order only up to and including the first failing one — an error is not
swallowed, it prevents stopping the rest — and the loop is exited (exactly
one quit, as the last action) precisely when every stop succeeds. -/
theorem scan_timeout_characterization (adapters : List AdapterSim) :
    scan_timeout 0 adapters =
      ((List.range (min (adapters.findIdx (fun a => a.stopFails) + 1)
          adapters.length)).map ScanAct.stopAtTimeoutCall ++
        (if adapters.all (fun a => !a.stopFails) then [ScanAct.quitScanLoop] else []),
        adapters.all (fun a => !a.stopFails)) := by
  have h := scan_timeout_trace adapters 0
  have hf : (fun k => ScanAct.stopAtTimeoutCall (0 + k)) =
      ScanAct.stopAtTimeoutCall := by
    funext k
    rw [Nat.zero_add]
  rw [h, hf]

theorem scan_outcome_const (s1 s2 : MgrState) (adapters : List AdapterSim)
    (timeout : Nat) :
    (scan s1 adapters timeout).2 = (scan s2 adapters timeout).2 := by
  by_cases h : (scanStartPhase 0 adapters).2 = true
  · simp [scan, h]
  · have h2 : (scanStartPhase 0 adapters).2 = false := by simpa using h
    simp [scan, h2]

/-- C9 (counterexample): session state is NOT fully reset: the two signal
subscriptions added by a scan call are never removed, so after one scan on a
fresh manager the subscription state is non-empty instead of restored. -/
theorem scan_subscriptions_not_reset :
    (scan ⟨[]⟩ [] 5).1.subscriptions = ["InterfacesAdded", "PropertiesChanged"] ∧
    (scan ⟨[]⟩ [] 5).1.subscriptions ≠ ([] : List String) := by
  refine ⟨rfl, by decide⟩

/-- C9 (amended): two sequential scan calls do each independently stop and
start discovery, arm a fresh timer and return identical, independently
produced outcomes, but the signal subscriptions are not reset: each call
appends its two receivers, which accumulate across calls. -/
theorem scan_reuse_characterization
    (st : MgrState) (adapters : List AdapterSim) (timeout : Nat)
    (hstart : ∀ a ∈ adapters, a.startFails = false)
    (hstop : ∀ a ∈ adapters, a.stopFails = false) :
    (scanTwice st adapters timeout).2.1 = (scanTwice st adapters timeout).2.2 ∧
    (scanTwice st adapters timeout).2.1.returned = true ∧
    ScanAct.armTimer timeout ∈ (scanTwice st adapters timeout).2.2.trace ∧
    (scanTwice st adapters timeout).1.subscriptions =
      st.subscriptions ++ ["InterfacesAdded", "PropertiesChanged",
        "InterfacesAdded", "PropertiesChanged"] := by
  have hany : adapters.any (fun a => a.startFails) = false := by
    rw [List.any_eq_false]
    intro a ha
    simp [hstart a ha]
  have hsp : (scanStartPhase 0 adapters).2 = false := by
    rw [scanStartPhase_snd]
    exact hany
  have htc := scan_timeout_all_ok adapters hstop
  refine ⟨?_, ?_, ?_, ?_⟩
  · exact scan_outcome_const st (scan st adapters timeout).1 adapters timeout
  · show (scan st adapters timeout).2.returned = true
    simp [scan, hsp, htc]
  · show ScanAct.armTimer timeout ∈
      (scan (scan st adapters timeout).1 adapters timeout).2.trace
    simp [scan, hsp]
  · show (scan (scan st adapters timeout).1 adapters timeout).1.subscriptions = _
    simp [scan, hsp]

/-- C9 (witness): one well-behaved adapter, two scans with timeout 3. -/
theorem scan_reuse_witness :
    (scanTwice ⟨[]⟩ [⟨false, false, false⟩] 3).2.1 =
      (scanTwice ⟨[]⟩ [⟨false, false, false⟩] 3).2.2 ∧
    (scanTwice ⟨[]⟩ [⟨false, false, false⟩] 3).2.1.returned = true ∧
    ScanAct.armTimer 3 ∈ (scanTwice ⟨[]⟩ [⟨false, false, false⟩] 3).2.2.trace ∧
    (scanTwice ⟨[]⟩ [⟨false, false, false⟩] 3).1.subscriptions =
      ([] : List String) ++ ["InterfacesAdded", "PropertiesChanged",
        "InterfacesAdded", "PropertiesChanged"] :=
  scan_reuse_characterization ⟨[]⟩ [⟨false, false, false⟩] 3 (by decide) (by decide)
